import Mathlib

/-!
Shallow embedding of the cycle/pause time-accounting core of the
ControlProduccion backend (src/backend/main.py).

Modelling conventions:
* timestamps and elapsed seconds are rationals (`ℚ`), standing for the
  real-valued `datetime` arithmetic of the source;
* a pause stored in `Registros_Pausas` is a `PauseRecord`; its stored
  `duracion_s` is an integer, since the source always stores
  `int(duracion.total_seconds())`;
* a row of `Registros_Ciclos` is a `CycleRecord`;
* a list standing for rows returned `ORDER BY marca_tiempo DESC` is kept
  most-recent-first, so the SQL `LIMIT n` is `List.take n`.
-/

namespace ControlProduccion

/-- A row of the `Registros_Pausas` table. -/
structure PauseRecord where
  idPausa : Nat
  idOperario : Nat
  horaInicio : ℚ
  horaFin : Option ℚ
  motivo : Option String
  duracion : Option ℤ
  finalizada : Bool
deriving Repr, DecidableEq

/-- A row of the `Registros_Ciclos` table.  `fechaRegistro` is the calendar
date encoded as an integer day number. -/
structure CycleRecord where
  idOperario : Nat
  idTarea : Nat
  marcaTiempo : ℚ
  tiempoCiclo : Option ℚ
  fechaRegistro : ℤ
deriving Repr, DecidableEq

/-- The SQL of step 2.1 of `registrar_ciclo`:
`SELECT COALESCE(SUM(duracion_s), 0) FROM Registros_Pausas WHERE id_operario = op
AND finalizada = TRUE AND hora_inicio_pausa > prev AND hora_inicio_pausa < now`. -/
def pausesClosedSum (op : Nat) (prev now : ℚ) (pauses : List PauseRecord) : ℤ :=
  ((pauses.filter (fun p =>
      p.idOperario == op && p.finalizada &&
      decide (prev < p.horaInicio) && decide (p.horaInicio < now))).map
    (fun p => p.duracion.getD 0)).sum

/-- The SQL of step 2.2 of `registrar_ciclo`:
`SELECT COUNT(*) FROM Registros_Pausas WHERE id_operario = op AND
finalizada = FALSE AND hora_inicio_pausa > prev AND hora_inicio_pausa < now`. -/
def pausasSinFinalizar (op : Nat) (prev now : ℚ) (pauses : List PauseRecord) : Nat :=
  (pauses.filter (fun p =>
      p.idOperario == op && !p.finalizada &&
      decide (prev < p.horaInicio) && decide (p.horaInicio < now))).length

/-- Steps 2–2.3 of `registrar_ciclo`: the computed `tiempo_ciclo_s`.
`prevOpt` is the `marca_tiempo` of the operator's most recent prior cycle
record (absent on the first cycle).  If an unfinished pause starts strictly
inside the window the duration is `none`; otherwise the raw delta minus the
closed-pause seconds, discarded (`none`) when above 300 or below 0. -/
def computeTiempoCiclo (op : Nat) (prevOpt : Option ℚ) (now : ℚ)
    (pauses : List PauseRecord) : Option ℚ :=
  match prevOpt with
  | none => none
  | some prev =>
    let tiempoBrutoS : ℚ := now - prev
    if pausasSinFinalizar op prev now pauses > 0 then
      none
    else
      let t : ℚ := tiempoBrutoS - (pausesClosedSum op prev now pauses : ℚ)
      if t > 300 ∨ t < 0 then none else some t

/-- The SQL of step 3 of `registrar_ciclo`:
`SELECT tiempo_ciclo_s FROM Registros_Ciclos WHERE id_operario = op AND
tiempo_ciclo_s IS NOT NULL AND fecha_registro = CURRENT_DATE
ORDER BY marca_tiempo DESC LIMIT 4`.  `history` is the table content
most-recent-first. -/
def ultimosCiclos (op : Nat) (today : ℤ) (history : List CycleRecord) : List ℚ :=
  (((history.filter (fun r =>
      r.idOperario == op && r.tiempoCiclo.isSome && r.fechaRegistro == today)).take 4).filterMap
    (fun r => r.tiempoCiclo))

/-- Step 3 of `registrar_ciclo`: `promedio_5_ciclos` is the mean of the
current `tiempo_ciclo_s` together with the last four valid same-day cycle
times, or `None` when the current duration is `None`. -/
def computePromedio5 (tiempoCiclo : Option ℚ) (recentes : List ℚ) : Option ℚ :=
  match tiempoCiclo with
  | none => none
  | some t =>
    let tiempos := t :: recentes
    some (tiempos.sum / (tiempos.length : ℚ))

/-- Step 4 of `registrar_ciclo`: the `estado` label from the average and the
task thresholds.  Starts at "Normal"; when the average is known it becomes
"Excelente" when `promedio ≤ umbral_excelente`, else "Lento" when
`promedio ≥ umbral_lento`. -/
def computeEstado (promedio5 : Option ℚ) (umbralExcelente umbralLento : ℚ) : String :=
  match promedio5 with
  | none => "Normal"
  | some p =>
    if p ≤ umbralExcelente then "Excelente"
    else if p ≥ umbralLento then "Lento"
    else "Normal"

/-- The computed part of the response of `registrar_ciclo`. -/
structure CicloResult where
  tiempoCiclo : Option ℚ
  promedio5 : Option ℚ
  estado : String
deriving Repr, DecidableEq

/-- The pure computation performed by the `POST /api/ciclo` handler
`registrar_ciclo` for one cycle-completion event, given the snapshots its
queries read from storage. -/
def registrarCiclo (op : Nat) (umbralExcelente umbralLento : ℚ)
    (prevOpt : Option ℚ) (now : ℚ) (pauses : List PauseRecord)
    (today : ℤ) (history : List CycleRecord) : CicloResult :=
  let t := computeTiempoCiclo op prevOpt now pauses
  let recentes := ultimosCiclos op today history
  let prom := computePromedio5 t recentes
  { tiempoCiclo := t
    promedio5 := prom
    estado := computeEstado prom umbralExcelente umbralLento }

/-- The two `InvalidState` errors raised by `registrar_pausa`:
"Ya existe una pausa activa para este operario" (HTTP 400) and
"No hay pausas activas para este operario" (HTTP 404).  An error raised
inside `get_db_connection` rolls the transaction back, so an erroring call
leaves the stored pause state unchanged; the model reflects that by
returning no state on error. -/
inductive PausaError where
  | pausaYaActiva
  | noHayPausaActiva
deriving Repr, DecidableEq

/-- The SQL shared by both branches of `registrar_pausa`:
`SELECT ... FROM Registros_Pausas WHERE id_operario = op AND finalizada = FALSE`. -/
def openPausesOf (op : Nat) (pauses : List PauseRecord) : List PauseRecord :=
  pauses.filter (fun p => p.idOperario == op && !p.finalizada)

/-- Python `int(timedelta.total_seconds())`: truncation toward zero. -/
def truncSec (q : ℚ) : ℤ :=
  if q < 0 then -((-q).floor) else q.floor

/-- The `accion == "INICIO"` branch of `registrar_pausa`: if the operator has
any unfinished pause the call fails with "Ya existe una pausa activa";
otherwise a new open row is inserted (its fresh `id_pausa` is `newId`). -/
def registrarPausaInicio (op : Nat) (motivo : Option String) (now : ℚ)
    (newId : Nat) (pauses : List PauseRecord) :
    Except PausaError (List PauseRecord) :=
  match openPausesOf op pauses with
  | _ :: _ => .error .pausaYaActiva
  | [] =>
    .ok (pauses ++ [{ idPausa := newId, idOperario := op, horaInicio := now,
                      horaFin := none, motivo := motivo, duracion := none,
                      finalizada := false }])

/-- One step of selecting a latest-starting pause: keep the later of the
accumulator and the next record. -/
def pickLater : Option PauseRecord → PauseRecord → Option PauseRecord := fun acc p =>
  match acc with
  | none => some p
  | some q => if q.horaInicio < p.horaInicio then some p else some q

/-- The SQL of the `accion == "FIN"` branch:
`SELECT id_pausa, hora_inicio_pausa FROM Registros_Pausas WHERE id_operario =
op AND finalizada = FALSE ORDER BY hora_inicio_pausa DESC LIMIT 1` — the
unfinished pause with the latest start time, if any, realised as a maximum
fold. -/
def selectPausaActiva (op : Nat) (pauses : List PauseRecord) : Option PauseRecord :=
  (openPausesOf op pauses).foldl pickLater none

/-- The `accion == "FIN"` branch of `registrar_pausa`: with no unfinished
pause it fails with "No hay pausas activas"; otherwise the selected pause is
updated (`hora_fin_pausa = now`, `duracion_s = int((now-start).total_seconds())`,
`finalizada = TRUE`, keyed on its `id_pausa`) and the duration is returned. -/
def registrarPausaFin (op : Nat) (now : ℚ) (pauses : List PauseRecord) :
    Except PausaError (ℤ × List PauseRecord) :=
  match selectPausaActiva op pauses with
  | none => .error .noHayPausaActiva
  | some sel =>
    let d := truncSec (now - sel.horaInicio)
    .ok (d, pauses.map (fun p =>
      if p.idPausa == sel.idPausa then
        { p with horaFin := some now, duracion := some d, finalizada := true }
      else p))

/-! Theorems about the cycle computation. -/

/-- C9: if the operator has no prior cycle record (`previous_cycle_timestamp`
absent), the cycle computation returns unknown duration and unknown
average. -/
theorem C9_primer_ciclo_sin_datos (op : Nat) (ue ul : ℚ) (now : ℚ)
    (pauses : List PauseRecord) (today : ℤ) (history : List CycleRecord) :
    (registrarCiclo op ue ul none now pauses today history).tiempoCiclo = none ∧
    (registrarCiclo op ue ul none now pauses today history).promedio5 = none :=
  ⟨rfl, rfl⟩

/-- C4: every duration the cycle computation returns is either absent or
within `[0, 300]` seconds; an unknown duration yields an unknown average, so
an out-of-bounds delta is never propagated to the average. -/
theorem C4_guardia_de_atipicos (op : Nat) (prevOpt : Option ℚ) (now : ℚ)
    (pauses : List PauseRecord) :
    (computeTiempoCiclo op prevOpt now pauses = none ∨
      ∃ t, computeTiempoCiclo op prevOpt now pauses = some t ∧ 0 ≤ t ∧ t ≤ 300) ∧
    ∀ recentes : List ℚ, computePromedio5 none recentes = none := by
  refine ⟨?_, fun recentes => rfl⟩
  match prevOpt with
  | none => exact Or.inl rfl
  | some prev =>
    simp only [computeTiempoCiclo]
    split_ifs with hpos hout
    · exact Or.inl rfl
    · exact Or.inl rfl
    · refine Or.inr ⟨_, rfl, ?_, ?_⟩
      · push_neg at hout
        linarith [hout.2]
      · push_neg at hout
        linarith [hout.1]

/-- C1: with a known previous timestamp, no unfinished pause starting in the
window, and a result inside the outlier bounds, the computed duration is the
raw delta `now - prev` minus the summed durations of the finished pauses
whose start lies strictly between `prev` and `now`. -/
theorem C1_resta_pausas_cerradas (op : Nat) (prev now : ℚ)
    (pauses : List PauseRecord)
    (hopen : pausasSinFinalizar op prev now pauses = 0)
    (h0 : 0 ≤ (now - prev) - (pausesClosedSum op prev now pauses : ℚ))
    (h300 : (now - prev) - (pausesClosedSum op prev now pauses : ℚ) ≤ 300) :
    computeTiempoCiclo op (some prev) now pauses =
      some ((now - prev) - (pausesClosedSum op prev now pauses : ℚ)) := by
  have h1 : ¬ pausasSinFinalizar op prev now pauses > 0 := by omega
  have h2 : ¬ ((now - prev) - (pausesClosedSum op prev now pauses : ℚ) > 300 ∨
      (now - prev) - (pausesClosedSum op prev now pauses : ℚ) < 0) := by
    push_neg
    exact ⟨h300, h0⟩
  simp only [computeTiempoCiclo, h1, if_false, h2]

/-- The spec scenario behind C1: prior cycle at `T = 0`, current completion
at `T + 20`, one finished 5-second pause starting inside the window. -/
def pausasEscenarioC1 : List PauseRecord :=
  [{ idPausa := 1, idOperario := 3582, horaInicio := 10, horaFin := some 15,
     motivo := some "Sin Materiales", duracion := some 5, finalizada := true }]

/-- Witness for C1: a 20-second raw gap containing one closed 5-second pause
yields duration 15. -/
theorem C1_resta_pausas_cerradas_witness :
    computeTiempoCiclo 3582 (some 0) 20 pausasEscenarioC1 = some 15 := by
  have h := C1_resta_pausas_cerradas 3582 0 20 pausasEscenarioC1
    (by norm_num [pausasSinFinalizar, pausasEscenarioC1, List.filter])
    (by norm_num [pausesClosedSum, pausasEscenarioC1, List.filter])
    (by norm_num [pausesClosedSum, pausasEscenarioC1, List.filter])
  rw [h]
  norm_num [pausesClosedSum, pausasEscenarioC1, List.filter]

/-- C2: an unfinished pause whose start lies strictly inside the window
between the previous cycle timestamp and `now` forces an unknown duration,
regardless of the raw elapsed time. -/
theorem C2_pausa_abierta_invalida (op : Nat) (prev now : ℚ)
    (pauses : List PauseRecord)
    (h : ∃ p ∈ pauses, p.idOperario = op ∧ p.finalizada = false ∧
          prev < p.horaInicio ∧ p.horaInicio < now) :
    computeTiempoCiclo op (some prev) now pauses = none := by
  obtain ⟨p, hp, hop, hfin, hlo, hhi⟩ := h
  have hmem : p ∈ pauses.filter (fun p =>
      p.idOperario == op && !p.finalizada &&
      decide (prev < p.horaInicio) && decide (p.horaInicio < now)) := by
    rw [List.mem_filter]
    refine ⟨hp, ?_⟩
    simp [hop, hfin, hlo, hhi]
  have hpos : pausasSinFinalizar op prev now pauses > 0 := by
    unfold pausasSinFinalizar
    exact List.length_pos.2 (List.ne_nil_of_mem hmem)
  simp only [computeTiempoCiclo, hpos, if_true]

/-- Witness for C2: prior cycle at `T = 0`, now at `T + 20`, one open pause
starting at `T + 2` → duration unknown. -/
theorem C2_pausa_abierta_invalida_witness :
    computeTiempoCiclo 3582 (some 0) 20
      [{ idPausa := 1, idOperario := 3582, horaInicio := 2, horaFin := none,
         motivo := some "Sin Materiales", duracion := none,
         finalizada := false }] = none :=
  C2_pausa_abierta_invalida 3582 0 20 _
    ⟨{ idPausa := 1, idOperario := 3582, horaInicio := 2, horaFin := none,
       motivo := some "Sin Materiales", duracion := none, finalizada := false },
     by norm_num, by norm_num⟩

/-- The window of prior valid durations never exceeds the SQL `LIMIT 4`. -/
lemma ultimosCiclos_length_le (op : Nat) (today : ℤ) (history : List CycleRecord) :
    (ultimosCiclos op today history).length ≤ 4 := by
  unfold ultimosCiclos
  refine le_trans (List.length_filterMap_le _ _) ?_
  simp [List.length_take]

/-- C3: when the duration is known the returned rolling average is the
arithmetic mean of that duration together with the up-to-4 most recent prior
valid same-day durations (order-independent, at most 5 values in total);
when the duration is unknown the average is unknown. -/
theorem C3_promedio_es_media (op : Nat) (ue ul : ℚ) (prevOpt : Option ℚ)
    (now : ℚ) (pauses : List PauseRecord) (today : ℤ)
    (history : List CycleRecord) :
    ((registrarCiclo op ue ul prevOpt now pauses today history).tiempoCiclo = none →
      (registrarCiclo op ue ul prevOpt now pauses today history).promedio5 = none) ∧
    ∀ t, (registrarCiclo op ue ul prevOpt now pauses today history).tiempoCiclo = some t →
      (ultimosCiclos op today history).length ≤ 4 ∧
      ∀ l : List ℚ, (t :: ultimosCiclos op today history).Perm l →
        (registrarCiclo op ue ul prevOpt now pauses today history).promedio5 =
          some (l.sum / (l.length : ℚ)) := by
  constructor
  · intro h
    simp only [registrarCiclo] at h ⊢
    rw [h]
    rfl
  · intro t ht
    refine ⟨ultimosCiclos_length_le op today history, fun l hperm => ?_⟩
    simp only [registrarCiclo] at ht ⊢
    rw [ht]
    simp only [computePromedio5]
    rw [hperm.sum_eq, hperm.length_eq]

/-- Witness for C3: a lone first valid cycle of 10 seconds averages to 10. -/
theorem C3_promedio_es_media_witness :
    (registrarCiclo 3582 11 15 (some 0) 10 [] 0 []).promedio5 = some 10 := by
  have h := ((C3_promedio_es_media 3582 11 15 (some 0) 10 [] 0 []).2 10
    (by norm_num [registrarCiclo, computeTiempoCiclo, pausasSinFinalizar,
      pausesClosedSum])).2 [10] (List.Perm.refl _)
  simpa using h

/-- C5: with a known average the status is "Excelente" when it is at most
the excellent threshold, else "Lento" when it is at least the slow
threshold, else "Normal"; an unknown average defaults to "Normal"; the
status is always one of the three literals; and the spec's threshold
examples hold. -/
theorem C5_estado_clasificacion (ue ul : ℚ) :
    computeEstado none ue ul = "Normal" ∧
    (∀ a : ℚ, computeEstado (some a) ue ul =
      if a ≤ ue then "Excelente" else if ul ≤ a then "Lento" else "Normal") ∧
    (∀ o : Option ℚ, computeEstado o ue ul = "Excelente" ∨
      computeEstado o ue ul = "Normal" ∨ computeEstado o ue ul = "Lento") ∧
    computeEstado (some 10.5) 11 15 = "Excelente" ∧
    computeEstado (some 13) 11 15 = "Normal" ∧
    computeEstado (some 16) 11 15 = "Lento" := by
  refine ⟨rfl, fun a => ?_, fun o => ?_, ?_, ?_, ?_⟩
  · simp only [computeEstado, ge_iff_le]
  · match o with
    | none => exact Or.inr (Or.inl rfl)
    | some a =>
      simp only [computeEstado]
      split_ifs
      · exact Or.inl rfl
      · exact Or.inr (Or.inr rfl)
      · exact Or.inr (Or.inl rfl)
  · norm_num [computeEstado]
  · norm_num [computeEstado]
  · norm_num [computeEstado]

/-- The ordering Excellent < Normal < Slow on status labels, for stating
monotonicity of the classification. -/
def estadoRank (e : String) : Nat :=
  if e = "Excelente" then 0 else if e = "Normal" then 1 else 2

/-- C6: for thresholds with `umbral_excelente ≤ umbral_lento`, the status is
monotone in the average under Excellent < Normal < Slow. -/
theorem C6_clasificacion_monotona (ue ul a1 a2 : ℚ) (hu : ue ≤ ul)
    (h12 : a1 < a2) :
    estadoRank (computeEstado (some a1) ue ul) ≤
      estadoRank (computeEstado (some a2) ue ul) := by
  simp only [computeEstado, ge_iff_le]
  split_ifs <;> simp [estadoRank] <;> linarith

/-- Witness for C6 at thresholds 11/15 and averages 10 < 16. -/
theorem C6_clasificacion_monotona_witness :
    estadoRank (computeEstado (some 10) 11 15) ≤
      estadoRank (computeEstado (some 16) 11 15) :=
  C6_clasificacion_monotona 11 15 10 16 (by norm_num) (by norm_num)

/-! Lemmas about the open-pause query and the latest-pause selection. -/

lemma mem_openPausesOf (op : Nat) (pauses : List PauseRecord) (p : PauseRecord) :
    p ∈ openPausesOf op pauses ↔
      p ∈ pauses ∧ p.idOperario = op ∧ p.finalizada = false := by
  unfold openPausesOf
  rw [List.mem_filter]
  simp [and_assoc]

lemma openPausesOf_eq_nil (op : Nat) (pauses : List PauseRecord) :
    openPausesOf op pauses = [] ↔
      ¬ ∃ p ∈ pauses, p.idOperario = op ∧ p.finalizada = false := by
  constructor
  · intro hnil ⟨p, hp, hop, hfin⟩
    have : p ∈ openPausesOf op pauses := (mem_openPausesOf op pauses p).2 ⟨hp, hop, hfin⟩
    simp [hnil] at this
  · intro hno
    rcases hl : openPausesOf op pauses with _ | ⟨a, t⟩
    · rfl
    · exfalso
      have ha : a ∈ openPausesOf op pauses := by
        rw [hl]
        exact List.mem_cons_self a t
      exact hno ⟨a, ((mem_openPausesOf op pauses a).1 ha)⟩

lemma pickLater_ne_none (acc : Option PauseRecord) (p : PauseRecord) :
    pickLater acc p ≠ none := by
  cases acc with
  | none => simp [pickLater]
  | some q =>
    simp only [pickLater]
    split_ifs <;> simp

lemma foldl_pickLater_eq_none (l : List PauseRecord) :
    ∀ acc : Option PauseRecord, l.foldl pickLater acc = none ↔ l = [] ∧ acc = none := by
  induction l with
  | nil => intro acc; simp
  | cons p t ih =>
    intro acc
    simp only [List.foldl_cons, ih]
    constructor
    · rintro ⟨-, h2⟩
      exact absurd h2 (pickLater_ne_none acc p)
    · rintro ⟨h1, -⟩
      exact absurd h1 (List.cons_ne_nil p t)

lemma foldl_pickLater_mem (l : List PauseRecord) :
    ∀ (acc : Option PauseRecord) (sel : PauseRecord),
      l.foldl pickLater acc = some sel → acc = some sel ∨ sel ∈ l := by
  induction l with
  | nil => intro acc sel h; exact Or.inl h
  | cons p t ih =>
    intro acc sel h
    rcases ih (pickLater acc p) sel h with h1 | h1
    · cases acc with
      | none =>
        simp only [pickLater] at h1
        cases h1
        exact Or.inr (List.mem_cons_self p t)
      | some q =>
        simp only [pickLater] at h1
        split_ifs at h1
        · cases h1
          exact Or.inr (List.mem_cons_self p t)
        · exact Or.inl h1
    · exact Or.inr (List.mem_cons_of_mem p h1)

lemma foldl_pickLater_le (l : List PauseRecord) :
    ∀ (acc : Option PauseRecord) (sel : PauseRecord),
      l.foldl pickLater acc = some sel →
      (∀ q, acc = some q → q.horaInicio ≤ sel.horaInicio) ∧
      ∀ p ∈ l, p.horaInicio ≤ sel.horaInicio := by
  induction l with
  | nil =>
    intro acc sel h
    refine ⟨fun q hq => ?_, fun p hp => absurd hp (List.not_mem_nil p)⟩
    simp only [List.foldl_nil] at h
    rw [h] at hq
    cases hq
    exact le_refl _
  | cons p t ih =>
    intro acc sel h
    obtain ⟨hstep, hrest⟩ := ih (pickLater acc p) sel h
    have hp : p.horaInicio ≤ sel.horaInicio := by
      cases acc with
      | none => exact hstep p rfl
      | some q =>
        by_cases hqp : q.horaInicio < p.horaInicio
        · exact hstep p (by simp [pickLater, hqp])
        · have hq := hstep q (by simp [pickLater, hqp])
          exact le_trans (not_lt.1 hqp) hq
    refine ⟨fun q hq => ?_, fun r hr => ?_⟩
    · subst hq
      by_cases hqp : q.horaInicio < p.horaInicio
      · exact le_trans (le_of_lt hqp) hp
      · exact hstep q (by simp [pickLater, hqp])
    · rcases List.mem_cons.1 hr with rfl | hr
      · exact hp
      · exact hrest r hr

lemma selectPausaActiva_eq_none (op : Nat) (pauses : List PauseRecord) :
    selectPausaActiva op pauses = none ↔ openPausesOf op pauses = [] := by
  unfold selectPausaActiva
  rw [foldl_pickLater_eq_none]
  simp

lemma selectPausaActiva_spec (op : Nat) (pauses : List PauseRecord)
    (sel : PauseRecord) (h : selectPausaActiva op pauses = some sel) :
    sel ∈ pauses ∧ sel.idOperario = op ∧ sel.finalizada = false ∧
      ∀ p ∈ pauses, p.idOperario = op → p.finalizada = false →
        p.horaInicio ≤ sel.horaInicio := by
  unfold selectPausaActiva at h
  have hmem := foldl_pickLater_mem _ _ _ h
  have hle := (foldl_pickLater_le _ _ _ h).2
  rcases hmem with h1 | h1
  · exact absurd h1 (by simp)
  · rw [mem_openPausesOf] at h1
    refine ⟨h1.1, h1.2.1, h1.2.2, fun p hp hop hfin => ?_⟩
    exact hle p ((mem_openPausesOf op pauses p).2 ⟨hp, hop, hfin⟩)

/-- C7: the pause state machine rejects exactly the invalid transitions:
starting a pause while one is open fails with the "Ya existe una pausa
activa" error and inserts nothing, ending a pause with none open fails with
the "No hay pausas activas" error and updates nothing (errors roll the
transaction back), and both transitions succeed from the complementary
state. -/
theorem C7_transiciones_invalidas (op : Nat) (motivo : Option String)
    (now : ℚ) (newId : Nat) (pauses : List PauseRecord) :
    ((∃ p ∈ pauses, p.idOperario = op ∧ p.finalizada = false) →
      registrarPausaInicio op motivo now newId pauses = .error .pausaYaActiva) ∧
    ((¬ ∃ p ∈ pauses, p.idOperario = op ∧ p.finalizada = false) →
      registrarPausaInicio op motivo now newId pauses =
        .ok (pauses ++ [{ idPausa := newId, idOperario := op, horaInicio := now,
                          horaFin := none, motivo := motivo, duracion := none,
                          finalizada := false }])) ∧
    ((¬ ∃ p ∈ pauses, p.idOperario = op ∧ p.finalizada = false) →
      registrarPausaFin op now pauses = .error .noHayPausaActiva) ∧
    ((∃ p ∈ pauses, p.idOperario = op ∧ p.finalizada = false) →
      ∃ d rest, registrarPausaFin op now pauses = .ok (d, rest)) := by
  refine ⟨fun h => ?_, fun h => ?_, fun h => ?_, fun h => ?_⟩
  · rcases hl : openPausesOf op pauses with _ | ⟨a, t⟩
    · exact absurd h ((openPausesOf_eq_nil op pauses).1 hl)
    · simp [registrarPausaInicio, hl]
  · have hl := (openPausesOf_eq_nil op pauses).2 h
    simp [registrarPausaInicio, hl]
  · have hl := (openPausesOf_eq_nil op pauses).2 h
    have hsel := (selectPausaActiva_eq_none op pauses).2 hl
    simp [registrarPausaFin, hsel]
  · rcases hsel : selectPausaActiva op pauses with _ | sel
    · rw [selectPausaActiva_eq_none] at hsel
      exact absurd h ((openPausesOf_eq_nil op pauses).1 hsel)
    · refine ⟨truncSec (now - sel.horaInicio),
        pauses.map (fun p =>
          if p.idPausa == sel.idPausa then
            { p with horaFin := some now,
                     duracion := some (truncSec (now - sel.horaInicio)),
                     finalizada := true }
          else p), ?_⟩
      simp [registrarPausaFin, hsel]

/-- An open pause used by the C7 witness. -/
def pausaAbiertaC7 : PauseRecord :=
  { idPausa := 1, idOperario := 7, horaInicio := 3, horaFin := none,
    motivo := none, duracion := none, finalizada := false }

/-- Witness for C7: starting over an open pause errors, ending with no open
pause errors. -/
theorem C7_transiciones_invalidas_witness :
    registrarPausaInicio 7 none 5 2 [pausaAbiertaC7] = .error .pausaYaActiva ∧
    registrarPausaFin 7 9 ([] : List PauseRecord) = .error .noHayPausaActiva :=
  ⟨(C7_transiciones_invalidas 7 none 5 2 [pausaAbiertaC7]).1
      ⟨pausaAbiertaC7, by simp, rfl, rfl⟩,
   (C7_transiciones_invalidas 7 none 9 0 []).2.2.1 (by simp)⟩

/-- C8: ending a pause for an operator with at least one open pause selects
the open pause with the latest start, closes it with end timestamp `now` and
stored duration `now - start` truncated to an integer, and returns that
duration. -/
theorem C8_fin_de_pausa (op : Nat) (now : ℚ) (pauses : List PauseRecord)
    (h : ∃ p ∈ pauses, p.idOperario = op ∧ p.finalizada = false) :
    ∃ sel ∈ pauses, sel.idOperario = op ∧ sel.finalizada = false ∧
      (∀ p ∈ pauses, p.idOperario = op → p.finalizada = false →
        p.horaInicio ≤ sel.horaInicio) ∧
      registrarPausaFin op now pauses =
        .ok (truncSec (now - sel.horaInicio),
          pauses.map (fun p =>
            if p.idPausa == sel.idPausa then
              { p with horaFin := some now,
                       duracion := some (truncSec (now - sel.horaInicio)),
                       finalizada := true }
            else p)) := by
  rcases hsel : selectPausaActiva op pauses with _ | sel
  · rw [selectPausaActiva_eq_none] at hsel
    exact absurd h ((openPausesOf_eq_nil op pauses).1 hsel)
  · obtain ⟨hmem, hop, hfin, hmax⟩ := selectPausaActiva_spec op pauses sel hsel
    exact ⟨sel, hmem, hop, hfin, hmax, by simp [registrarPausaFin, hsel]⟩

/-- The open pause used by the C8 witness: started at `t = 3`, closed at
`t = 9`, so 6 seconds. -/
def pausaAbiertaC8 : PauseRecord :=
  { idPausa := 4, idOperario := 7, horaInicio := 3, horaFin := none,
    motivo := some "Sin Materiales", duracion := none, finalizada := false }

/-- Witness for C8: closing the single open pause at `t = 9` returns 6
seconds and stores the closed interval. -/
theorem C8_fin_de_pausa_witness :
    registrarPausaFin 7 9 [pausaAbiertaC8] =
      .ok (6, [{ idPausa := 4, idOperario := 7, horaInicio := 3,
                 horaFin := some 9, motivo := some "Sin Materiales",
                 duracion := some 6, finalizada := true }]) := by
  obtain ⟨sel, hmem, hop, hfin, hmax, heq⟩ :=
    C8_fin_de_pausa 7 9 [pausaAbiertaC8] ⟨pausaAbiertaC8, by simp, rfl, rfl⟩
  have hsel : sel = pausaAbiertaC8 := by simpa using hmem
  subst hsel
  rw [heq]
  norm_num [truncSec, Rat.floor, pausaAbiertaC8]

/-- The fields of a cycle record that the prior-duration query of
`registrar_ciclo` can observe: everything except `id_tarea`. -/
def stripTask (r : CycleRecord) : Nat × ℚ × Option ℚ × ℤ :=
  (r.idOperario, r.marcaTiempo, r.tiempoCiclo, r.fechaRegistro)

lemma ultimosCiclosAux_stripTask (op : Nat) (today : ℤ) :
    ∀ (h1 : List CycleRecord) (n : Nat) (h2 : List CycleRecord),
      h1.map stripTask = h2.map stripTask →
      (((h1.filter (fun r =>
          r.idOperario == op && r.tiempoCiclo.isSome &&
          r.fechaRegistro == today)).take n).filterMap (fun r => r.tiempoCiclo)) =
      (((h2.filter (fun r =>
          r.idOperario == op && r.tiempoCiclo.isSome &&
          r.fechaRegistro == today)).take n).filterMap (fun r => r.tiempoCiclo)) := by
  intro h1
  induction h1 with
  | nil =>
    intro n h2 hmap
    have : h2 = [] := by
      cases h2 with
      | nil => rfl
      | cons b t => simp at hmap
    rw [this]
  | cons a t1 ih =>
    intro n h2 hmap
    cases h2 with
    | nil => simp at hmap
    | cons b t2 =>
      simp only [List.map_cons, List.cons.injEq] at hmap
      obtain ⟨hab, htails⟩ := hmap
      have hop : a.idOperario = b.idOperario := congrArg Prod.fst hab
      have hmt : a.marcaTiempo = b.marcaTiempo :=
        congrArg (fun x => x.2.1) hab
      have htc : a.tiempoCiclo = b.tiempoCiclo :=
        congrArg (fun x => x.2.2.1) hab
      have hfr : a.fechaRegistro = b.fechaRegistro :=
        congrArg (fun x => x.2.2.2) hab
      by_cases hpred : (a.idOperario == op && a.tiempoCiclo.isSome &&
          a.fechaRegistro == today) = true
      · have hpredb : (b.idOperario == op && b.tiempoCiclo.isSome &&
            b.fechaRegistro == today) = true := by
          rw [← hop, ← htc, ← hfr]
          exact hpred
        rw [List.filter_cons, List.filter_cons, if_pos hpred, if_pos hpredb]
        cases n with
        | zero => simp
        | succ m =>
          rw [List.take_succ_cons, List.take_succ_cons,
            List.filterMap_cons, List.filterMap_cons, htc]
          cases b.tiempoCiclo with
          | none => exact ih m t2 htails
          | some v => rw [ih m t2 htails]
      · have hpredb : ¬ (b.idOperario == op && b.tiempoCiclo.isSome &&
            b.fechaRegistro == today) = true := by
          rw [← hop, ← htc, ← hfr]
          exact hpred
        rw [List.filter_cons, List.filter_cons, if_neg hpred, if_neg hpredb]
        exact ih n t2 htails

/-- The prior-duration window reads only operator, timestamp, duration and
calendar date, never the task id. -/
lemma ultimosCiclos_stripTask (op : Nat) (today : ℤ)
    (h1 h2 : List CycleRecord) (h : h1.map stripTask = h2.map stripTask) :
    ultimosCiclos op today h1 = ultimosCiclos op today h2 :=
  ultimosCiclosAux_stripTask op today h1 4 h2 h

/-- C10: the prior durations entering the rolling average are selected only
by operator, calendar date and non-null duration, never by task: two prior
histories equal after erasing task ids give the same duration, average and
status, judged against the current task's thresholds. -/
theorem C10_promedio_ignora_tarea (op : Nat) (ue ul : ℚ)
    (prevOpt : Option ℚ) (now : ℚ) (pauses : List PauseRecord) (today : ℤ)
    (h1 h2 : List CycleRecord)
    (h : h1.map stripTask = h2.map stripTask) :
    registrarCiclo op ue ul prevOpt now pauses today h1 =
      registrarCiclo op ue ul prevOpt now pauses today h2 := by
  unfold registrarCiclo
  rw [ultimosCiclos_stripTask op today h1 h2 h]

/-- Witness for C10: two single-record histories that differ only in the
task id produce identical results. -/
theorem C10_promedio_ignora_tarea_witness :
    registrarCiclo 3582 11 15 (some 0) 10 [] 0
        [{ idOperario := 3582, idTarea := 1, marcaTiempo := 0,
           tiempoCiclo := some 12, fechaRegistro := 0 }] =
      registrarCiclo 3582 11 15 (some 0) 10 [] 0
        [{ idOperario := 3582, idTarea := 2, marcaTiempo := 0,
           tiempoCiclo := some 12, fechaRegistro := 0 }] :=
  C10_promedio_ignora_tarea 3582 11 15 (some 0) 10 [] 0 _ _ (by rfl)

end ControlProduccion
